import Mathlib

/-!
Shallow embedding of the police-data scraper (src/main.py) for checking the
natural-language specification against the code.

Conventions of the embedding:
- Python floats driving geometry are modelled as exact rationals; the claims
  settled here do not depend on binary floating-point rounding.
- The shapely library is modelled at the level the program uses it: a polygon
  is its exterior ring, a list of coordinate pairs; the constructor closes the
  ring and rejects rings of fewer than four closed coordinates, as shapely
  does. The opaque GEOS simplification routine is a parameter of the loop
  embedding, since the program treats it as a black box.
- The polars DataFrame calls are modelled by their effect: building a frame
  from a list of records and selecting named columns, where selecting from a
  frame built from an empty record list fails with a missing-column error,
  as polars does.
- HTTP is modelled by the final response a request produces: a status code
  and the decoded JSON body. The time-dependent rate-limit decorator and the
  wall-clock part of retry backoff are outside the embedding; the retry
  configuration and its urllib3 semantics are embedded as data.
-/

/-- Model of Python str.rjust: pad a string on the left with the fill
character up to the requested width (src/main.py line 36). -/
def rjust (s : String) (width : Nat) (fill : Char) : String :=
  if width ≤ s.length then s else String.mk (List.replicate (width - s.length) fill) ++ s

/-- Model of Python range(a, b) over integers: a, a+1, ..., b-1 (empty when
b ≤ a). -/
def intRange (a b : Int) : List Int :=
  (List.range (b - a).toNat).map (fun i => a + Int.ofNat i)

/-- Embedding of generate_months (src/main.py lines 20-39): the list
comprehension over product(range(start_year, end_year), range(1, 13)),
formatting each pair as str(year) + "-" + str(month).rjust(2, "0"). -/
def generate_months (start_year end_year : Int) : List String :=
  (intRange start_year end_year).flatMap (fun year =>
    (intRange 1 13).map (fun month => toString year ++ "-" ++ rjust (toString month) 2 '0'))

/-- Spec-side restatement of the month-range contract, written from the words
of spec section 4.2: for each year in ascending order, the twelve zero-padded
month strings in chronological order. Used only to be compared with
generate_months, which is translated from the code. -/
def monthsByYearSpec (start_year end_year : Int) : List String :=
  (intRange start_year end_year).flatMap (fun year =>
    ["01", "02", "03", "04", "05", "06", "07", "08", "09", "10", "11", "12"].map
      (fun m => toString year ++ "-" ++ m))

/-- Round-half-to-even on rationals, the tie rule of Python round. -/
def roundHalfEven (x : ℚ) : ℤ :=
  if x - (⌊x⌋ : ℚ) < 1/2 then ⌊x⌋
  else if 1/2 < x - (⌊x⌋ : ℚ) then ⌊x⌋ + 1
  else if ⌊x⌋ % 2 = 0 then ⌊x⌋ else ⌊x⌋ + 1

/-- Model of Python round(x, 5) (src/main.py line 83). -/
def round5 (x : ℚ) : ℚ := ((roundHalfEven (x * 100000) : ℤ) : ℚ) / 100000

/-- Drop trailing zero digits from a digit list, keeping at least one digit. -/
def stripZeros (s : List Char) : List Char :=
  let t := (s.reverse.dropWhile (fun c => c == '0')).reverse
  if t = [] then ['0'] else t

/-- Model of Python str on the float values the pipeline produces: sign,
integer part, a dot, and the fractional digits to five places with trailing
zeros dropped (Python prints the shortest round-tripping decimal, which for
values rounded to five decimal places is exactly this). -/
def numStr (q : ℚ) : String :=
  (if q < 0 then "-" else "") ++ toString (⌊|q|⌋.toNat) ++ "." ++
    String.mk (stripZeros (rjust (toString ((⌊(|q| - (⌊|q|⌋ : ℚ)) * 100000⌋).toNat)) 5 '0').data)

/-- Embedding of format_coordinates (src/main.py lines 42-58): join each
coordinate pair of the ring as first-component, comma, second-component,
with pairs separated by colons. The Python source names the first component
lon in its destructuring, but the pairs it receives from get_coords carry
latitude first (see aproxCoords below). -/
def format_coordinates (ring : List (ℚ × ℚ)) : String :=
  String.intercalate (":") (ring.map (fun p => numStr p.1 ++ "," ++ numStr p.2))

/-- Embedding of the rounding-and-swapping comprehension of get_coords
(src/main.py line 83): the stored file pairs are (longitude, latitude); the
result pairs are (round(lat, 5), round(long, 5)) — one axis swap. -/
def aproxCoords (coords : List (ℚ × ℚ)) : List (ℚ × ℚ) :=
  coords.map (fun p => (round5 p.2, round5 p.1))

/-- Model of Python dict.fromkeys deduplication (src/main.py lines 84-86):
remove duplicates keeping the first occurrence of each element, preserving
order. -/
def pyDedup {α : Type} [DecidableEq α] : List α → List α
  | [] => []
  | a :: l => a :: pyDedup (l.filter (fun b => decide (b ≠ a)))
termination_by l => l.length
decreasing_by
  simp only [List.length_cons]
  exact Nat.lt_succ_of_le (List.length_filter_le _ _)

/-- The deduplicated list computed by get_coords (src/main.py lines 84-86).
The source computes it and logs its length, but does not pass it to the
Polygon constructor. -/
def dedupedCoords (coords : List (ℚ × ℚ)) : List (ℚ × ℚ) :=
  pyDedup (aproxCoords coords)

/-- Model of the shapely Polygon constructor on a coordinate list, reduced to
the exterior ring the program reads back: the ring is closed by appending the
first coordinate when the list is not already closed; an empty list gives the
empty polygon; a closed ring of fewer than four coordinates is rejected with
a ValueError, as shapely rejects it. -/
def closeRing (coords : List (ℚ × ℚ)) : List (ℚ × ℚ) :=
  if coords.head? = coords.getLast? then coords else coords ++ coords.take 1

/-- Building Polygon(aprox_coords) and reading exterior.coords
(src/main.py lines 56 and 89), with the shapely failure case. -/
def buildPolygon (coords : List (ℚ × ℚ)) : Except String (List (ℚ × ℚ)) :=
  if coords = [] then Except.ok []
  else if (closeRing coords).length < 4 then
    Except.error ("ValueError: a linearring requires at least 4 coordinates")
  else Except.ok (closeRing coords)

/-- Embedding of the tolerance-growing loop of get_coords (src/main.py lines
92-96), parametric in the GEOS simplification routine (simplify) that the
program calls as a black box, and in a fuel bound standing for the number of
iterations examined: while the encoding is longer than 300 characters,
simplify with the current tolerance, re-encode, and grow the tolerance by a
factor 5/4. The result is some encoded string when the loop exits within
fuel iterations, none when it is still running. -/
def simplifyLoop (simplify : List (ℚ × ℚ) → ℚ → List (ℚ × ℚ)) :
    Nat → List (ℚ × ℚ) → ℚ → Option String
  | 0, p, _ =>
      if (format_coordinates p).length ≤ 300 then some (format_coordinates p) else none
  | n + 1, p, tol =>
      if (format_coordinates p).length ≤ 300 then some (format_coordinates p)
      else simplifyLoop simplify n (simplify p tol) (tol * (5/4))

/-- Embedding of get_coords (src/main.py lines 61-100) on the ring read from
the boundary file: round and swap the stored pairs, build the polygon from
aprox_coords (not from the deduplicated list), then run the simplification
loop starting from tolerance 1/1000000. -/
def get_coords (simplify : List (ℚ × ℚ) → ℚ → List (ℚ × ℚ)) (fuel : Nat)
    (coords : List (ℚ × ℚ)) : Except String (Option String) :=
  Except.map (fun ring => simplifyLoop simplify fuel ring (1/1000000))
    (buildPolygon (aproxCoords coords))

/-- Embedding of the location_coords dict comprehension of construct_url
(src/main.py lines 122-125): get_coords is called for every location name
in a bare comprehension with no exception handling, so the first failure
aborts the whole comprehension and with it the run. -/
def location_coords (simplify : List (ℚ × ℚ) → ℚ → List (ℚ × ℚ)) (fuel : Nat)
    (boundaries : List (String × List (ℚ × ℚ))) :
    Except String (List (String × Option String)) :=
  boundaries.mapM (fun b => Except.map (fun s => (b.1, s)) (get_coords simplify fuel b.2))

/-- The nested outcome-status object of an incident payload, as the code
reads it: only its category field is consulted (src/main.py line 204). -/
structure OutcomeStatus where
  category : Option String
deriving DecidableEq

/-- An incident record as the code consumes it: the month and category fields
selected into the output table (src/main.py line 213) and the optional
nested outcome_status object (src/main.py line 204). Other payload fields
are dropped by the select and cannot influence any output. -/
structure Crime where
  month : String
  category : String
  outcome_status : Option OutcomeStatus
deriving DecidableEq

/-- The final HTTP response a work-item request produces: status code and
decoded JSON body. -/
structure HttpResponse where
  status : Nat
  body : List Crime
deriving DecidableEq

/-- Embedding of make_request (src/main.py lines 143-169) on the final
response: 404 returns the empty list; otherwise any non-200 status has
raise_for_status called on it, which raises exactly for 4xx and 5xx
statuses; otherwise the decoded body is returned. The raised status is the
error value. -/
def make_request (r : HttpResponse) : Except Nat (List Crime) :=
  if r.status = 404 then Except.ok []
  else if r.status ≠ 200 then
    (if 400 ≤ r.status ∧ r.status < 600 then Except.error r.status else Except.ok r.body)
  else Except.ok r.body

/-- Embedding of the collection loop of main (src/main.py lines 255-257):
the list comprehension applying make_request to every (lsoa, url) work item
in order, with no exception handling around it — the first raise aborts the
whole comprehension. -/
def collect (items : List (String × HttpResponse)) : Except Nat (List (String × List Crime)) :=
  items.mapM (fun item => Except.map (fun d => (item.1, d)) (make_request item.2))

/-- The urllib3 Retry configuration constructed in main
(src/main.py lines 247-252). -/
structure RetryConfig where
  total : Nat
  status_forcelist : List Nat
  backoff_factor : ℚ
  respect_retry_after_header : Bool

/-- retry_logic = Retry(total=3, status_forcelist=[429, 500],
backoff_factor=1, respect_retry_after_header=True) (src/main.py lines
247-252). -/
def retry_logic : RetryConfig :=
  { total := 3
    status_forcelist := [429, 500]
    backoff_factor := 1
    respect_retry_after_header := true }

/-- urllib3 Retry.RETRY_AFTER_STATUS_CODES: the statuses whose Retry-After
header is honoured by the retry-after branch of is_retry. -/
def RETRY_AFTER_STATUS_CODES : List Nat := [413, 429, 503]

/-- urllib3 is_retry semantics: a response status triggers a retry when it
is a member of status_forcelist, or when total is truthy,
respect_retry_after_header is set, the response carries a Retry-After
header, and the status is in RETRY_AFTER_STATUS_CODES. -/
def retriedStatus (s : Nat) (hasRetryAfter : Bool) : Bool :=
  decide (s ∈ retry_logic.status_forcelist) ||
    (decide (0 < retry_logic.total) && retry_logic.respect_retry_after_header &&
      hasRetryAfter && decide (s ∈ RETRY_AFTER_STATUS_CODES))

/-- urllib3 get_backoff_time for the n-th consecutive retry: zero for the
first retry, otherwise backoff_factor times 2 to the (n-1), capped at the
default backoff maximum of 120 seconds. -/
def backoffTime (n : Nat) : ℚ :=
  if n ≤ 1 then 0 else min (retry_logic.backoff_factor * 2 ^ (n - 1)) 120

/-- urllib3 sleep semantics under this configuration: when
respect_retry_after_header is set and the response carries a positive
Retry-After value, sleep that long; otherwise fall back to the computed
backoff. -/
def retrySleep (retryAfter : Option ℚ) (n : Nat) : ℚ :=
  if retry_logic.respect_retry_after_header then
    match retryAfter with
    | some t => if 0 < t then t else backoffTime n
    | none => backoffTime n
  else backoffTime n

/-- A row of the incident table after the select (src/main.py line 213):
exactly the four retained columns. -/
structure IncidentRow where
  lsoa : String
  month : String
  category : String
  status : Option String
deriving DecidableEq

/-- One flattened record of format_data (src/main.py lines 200-210): the
spread crime dict with the owning lsoa added and the status column derived
as (crime.get("outcome_status") or empty dict).get("category"). -/
def mkRow (lsoa : String) (c : Crime) : IncidentRow :=
  { lsoa := lsoa
    month := c.month
    category := c.category
    status := c.outcome_status.bind (fun os => os.category) }

/-- The flat_data comprehension of format_data (src/main.py lines 200-210):
for report in data, for (lsoa, crimes) in report.items(), for crime in
crimes, if crimes is not empty, the flattened record. -/
def flatData (data : List (List (String × List Crime))) : List IncidentRow :=
  data.flatMap (fun report =>
    report.flatMap (fun p => if p.2 = [] then [] else p.2.map (mkRow p.1)))

/-- Embedding of format_data (src/main.py lines 187-214): build the polars
frame from the flat records and select the four columns. A frame built from
an empty record list has no columns, so the select of the lsoa column fails
with ColumnNotFoundError, as polars fails; otherwise the selected table is
the flat records projected to the four columns, one row per record. -/
def format_data (data : List (List (String × List Crime))) : Except String (List IncidentRow) :=
  if flatData data = [] then Except.error ("ColumnNotFoundError: lsoa")
  else Except.ok (flatData data)

/-- The column cells of one selected row, in the column order of the select
call (src/main.py line 213). -/
def rowCells (r : IncidentRow) : List (String × Option String) :=
  [("lsoa", some r.lsoa), ("month", some r.month), ("category", some r.category),
    ("status", r.status)]

/-- Total incident count of a collection result: the sum over all reports
and all (lsoa, crimes) pairs of the length of the crimes list. -/
def sumCrimes (data : List (List (String × List Crime))) : Nat :=
  (data.map (fun report => (report.map (fun p => p.2.length)).sum)).sum

/-- The grouping key of aggregate_stats (src/main.py line 232). -/
def incidentKey (r : IncidentRow) : String × String × String :=
  (r.lsoa, r.month, r.category)

/-- Embedding of aggregate_stats (src/main.py lines 217-237): select the
three key columns, group by them, and count each group. The polars group
order is unspecified; the embedding lists groups in first-appearance order,
which the settled properties do not depend on. -/
def aggregate_stats (rows : List IncidentRow) : List ((String × String × String) × Nat) :=
  let keys := rows.map incidentKey
  (pyDedup keys).map (fun k => (k, keys.count k))

/-! Helper lemmas. -/

theorem mem_pyDedup {α : Type} [DecidableEq α] (l : List α) (x : α) :
    x ∈ pyDedup l ↔ x ∈ l := by
  induction l using pyDedup.induct with
  | case1 => simp [pyDedup]
  | case2 a t ih =>
    rw [pyDedup]
    simp only [List.mem_cons, ih, List.mem_filter]
    constructor
    · rintro (rfl | ⟨hm, _⟩)
      · exact Or.inl rfl
      · exact Or.inr hm
    · rintro (rfl | hm)
      · exact Or.inl rfl
      · by_cases hx : x = a
        · exact Or.inl hx
        · exact Or.inr ⟨hm, by simpa using hx⟩

theorem pyDedup_nodup {α : Type} [DecidableEq α] (l : List α) : (pyDedup l).Nodup := by
  induction l using pyDedup.induct with
  | case1 => simp [pyDedup]
  | case2 a t ih =>
    rw [pyDedup, List.nodup_cons]
    refine ⟨fun hmem => ?_, ih⟩
    rw [mem_pyDedup, List.mem_filter] at hmem
    simpa using hmem.2

theorem pyDedup_count_sum {α : Type} [DecidableEq α] [BEq α] [LawfulBEq α] (l : List α) :
    ((pyDedup l).map (fun k => l.count k)).sum = l.length := by
  induction l using pyDedup.induct with
  | case1 => simp [pyDedup]
  | case2 a t ih =>
    rw [pyDedup, List.map_cons, List.sum_cons, List.count_cons_self]
    have hmap : (pyDedup (t.filter (fun b => decide (b ≠ a)))).map (fun k => (a :: t).count k) =
        (pyDedup (t.filter (fun b => decide (b ≠ a)))).map
          (fun k => (t.filter (fun b => decide (b ≠ a))).count k) := by
      refine List.map_congr_left (fun k hk => ?_)
      rw [mem_pyDedup, List.mem_filter] at hk
      have hka : k ≠ a := by simpa using hk.2
      rw [List.count_cons_of_ne hka, List.count_filter (by simpa using hka)]
    rw [hmap, ih]
    have hsplit : t.length =
        t.countP (fun b => b == a) + t.countP (fun b => decide ¬((fun b => b == a) b = true)) :=
      List.length_eq_countP_add_countP _ t
    have hc : t.count a = t.countP (fun b => b == a) := List.count_eq_countP a t
    have hf : (t.filter (fun b => decide (b ≠ a))).length =
        t.countP (fun b => decide (b ≠ a)) := (List.countP_eq_length_filter _ t).symm
    have hpeq : t.countP (fun b => decide (b ≠ a)) =
        t.countP (fun b => decide ¬((fun b => b == a) b = true)) := by
      refine List.countP_congr (fun b _ => ?_)
      by_cases hba : b = a <;> simp [hba]
    rw [List.length_cons, hf, hpeq]
    omega

/-- Claim C9: for every incident table, the aggregate table produced by
aggregate_stats has counts summing to the incident table row count, and no
(area, month, category) triple appears in more than one of its rows. -/
theorem aggregate_stats_invariants (rows : List IncidentRow) :
    ((aggregate_stats rows).map (fun g => g.2)).sum = rows.length ∧
    ((aggregate_stats rows).map (fun g => g.1)).Nodup := by
  constructor
  · have h : ((aggregate_stats rows).map (fun g => g.2)) =
        (pyDedup (rows.map incidentKey)).map (fun k => (rows.map incidentKey).count k) := by
      simp [aggregate_stats, List.map_map, Function.comp_def]
    rw [h, pyDedup_count_sum, List.length_map]
  · have h : ((aggregate_stats rows).map (fun g => g.1)) = pyDedup (rows.map incidentKey) := by
      simp [aggregate_stats, List.map_map, Function.comp_def]
    rw [h]
    exact pyDedup_nodup _

theorem sum_map_const12 (l : List Int) : (l.map (fun _ => (12 : ℕ))).sum = 12 * l.length := by
  induction l with
  | nil => simp
  | cons a t ih => simp [ih, Nat.mul_succ]; omega

/-- Claim C10: for every pair of years, generate_months returns exactly the
twelve zero-padded "YYYY-MM" strings for each year from start_year up to but
excluding end_year, in chronological order within each year and with years
ascending — stated as equality with the spec-side month list, together with
the twelve-per-year length count. -/
theorem generate_months_correct (start_year end_year : Int) :
    generate_months start_year end_year = monthsByYearSpec start_year end_year ∧
    (generate_months start_year end_year).length = 12 * (end_year - start_year).toNat := by
  constructor
  · rfl
  · rw [generate_months, List.length_flatMap]
    have hlen : ∀ year : Int,
        (List.length ∘ fun year =>
          (intRange 1 13).map (fun month => toString year ++ "-" ++ rjust (toString month) 2 '0'))
            year = (fun _ : Int => (12 : ℕ)) year := by
      intro year
      simp [intRange]
    have hr : (intRange start_year end_year).length = (end_year - start_year).toNat := by
      rw [intRange, List.length_map, List.length_range]
    rw [List.map_congr_left (fun y _ => hlen y), sum_map_const12, hr]

/-- Claim C3: a response with HTTP status 404 makes make_request return the
empty list as a successful outcome, whatever the response body holds; no
error value is produced. -/
theorem make_request_404_empty (body : List Crime) :
    make_request { status := 404, body := body } = Except.ok [] := rfl

/-- Counterexample to claim C1: a single work item whose final response is a
503 makes make_request raise, and the collection comprehension of main has
no exception handling, so the error propagates past the collection loop and
aborts the run instead of being recorded as an empty result. -/
theorem collect_aborts_on_failed_item :
    collect [("a", { status := 503, body := [] })] = Except.error 503 := rfl

/-- Claim C1 amended: when every work item resolves to a 200 or a 404, the
collection loop completes with exactly one outcome per work item, 404 items
yielding the empty list; but a work item whose final status is any other
4xx or 5xx raises an HTTPError that propagates uncaught past the collection
loop (see the counterexample), so failed items are not recorded as empty
results. -/
theorem collect_completes_when_benign (items : List (String × HttpResponse))
    (h : ∀ it ∈ items, it.2.status = 200 ∨ it.2.status = 404) :
    collect items =
      Except.ok (items.map (fun it => (it.1, if it.2.status = 404 then [] else it.2.body))) := by
  induction items with
  | nil => rfl
  | cons x xs ih =>
    have hx := h x (List.mem_cons_self x xs)
    have hxs : ∀ it ∈ xs, it.2.status = 200 ∨ it.2.status = 404 :=
      fun it hit => h it (List.mem_cons_of_mem x hit)
    have hmk : make_request x.2 = Except.ok (if x.2.status = 404 then [] else x.2.body) := by
      rcases hx with h200 | h404
      · rw [make_request]
        simp [h200]
      · rw [make_request]
        simp [h404]
    rw [collect] at ih ⊢
    rw [List.mapM_cons, hmk, ih hxs]
    rfl

/-- Witness for the amended claim C1 at a concrete work list: a 404 item and
a 200 item produce one outcome each, the 404 one empty. -/
theorem collect_completes_when_benign_witness :
    collect [("a", HttpResponse.mk 404 []),
        ("b", HttpResponse.mk 200 [Crime.mk ("2022-01") ("theft") none])] =
      Except.ok [("a", []), ("b", [Crime.mk ("2022-01") ("theft") none])] := by
  have h := collect_completes_when_benign
    [("a", HttpResponse.mk 404 []), ("b", HttpResponse.mk 200 [Crime.mk ("2022-01") ("theft") none])]
    (by decide)
  simpa using h

/-- Counterexample to claim C6: 502 is a 5xx status, but under the Retry
configuration of main it is never retried — it is not in status_forcelist,
and the Retry-After branch of is_retry does not apply to it either (502 is
not in RETRY_AFTER_STATUS_CODES), with or without a Retry-After header. -/
theorem status_502_never_retried :
    retriedStatus 502 true = false ∧ retriedStatus 502 false = false ∧
    500 ≤ 502 ∧ 502 < 600 := by decide

/-- Claim C6 amended: under the configuration a response status is retried
exactly when it is 429 or 500 (the status_forcelist) or when it carries a
Retry-After header and is one of 413, 429, 503 (the retry-after branch of
is_retry, enabled here because total and respect_retry_after_header are
set) — so 429 and 500 are always retried, 503 is retried exactly when it
carries Retry-After, and 502 and 504 are never retried, not every 5xx as
claimed. Retries are bounded by total = 3 with exponential backoff, and a
positive server-supplied Retry-After value takes precedence over the
computed backoff. -/
theorem retry_decision_amended :
    (∀ (s : Nat) (h : Bool), retriedStatus s h =
      (s == 429 || s == 500 || (h && (s == 413 || s == 429 || s == 503)))) ∧
    retry_logic.total = 3 ∧
    retry_logic.respect_retry_after_header = true ∧
    (∀ (t : ℚ) (n : Nat), 0 < t → retrySleep (some t) n = t) := by
  refine ⟨fun s h => ?_, rfl, rfl, fun t n ht => ?_⟩
  · cases h <;>
      by_cases h1 : s = 429 <;> by_cases h2 : s = 500 <;>
      by_cases h3 : s = 413 <;> by_cases h4 : s = 503 <;>
      simp [retriedStatus, retry_logic, RETRY_AFTER_STATUS_CODES, h1, h2, h3, h4]
  · simp [retrySleep, retry_logic, ht]

/-- Witness for the amended claim C6: a 503 carrying Retry-After is retried,
a 503 without it is not, and a Retry-After of two seconds is slept
verbatim. -/
theorem retry_decision_amended_witness :
    retriedStatus 503 true =
      (503 == 429 || 503 == 500 || (true && (503 == 413 || 503 == 429 || 503 == 503))) ∧
    retriedStatus 503 false =
      (503 == 429 || 503 == 500 || (false && (503 == 413 || 503 == 429 || 503 == 503))) ∧
    retrySleep (some 2) 1 = 2 :=
  ⟨retry_decision_amended.1 503 true, retry_decision_amended.1 503 false,
    retry_decision_amended.2.2.2 2 1 (by norm_num)⟩

/-- Counterexample to claim C8: a collection result whose only outcome is the
empty list yields an empty flat record list, the polars frame built from it
has no columns, and the select of the four columns fails — format_data
produces no incident table at all, rather than a zero-row table with four
columns. -/
theorem format_data_errors_on_all_empty :
    format_data [[("a", [])]] = Except.error ("ColumnNotFoundError: lsoa") := rfl

theorem flatData_length (data : List (List (String × List Crime))) :
    (flatData data).length = sumCrimes data := by
  have hinner : ∀ p : String × List Crime,
      (if p.2 = [] then [] else p.2.map (mkRow p.1)).length = p.2.length := by
    intro p
    by_cases h : p.2 = [] <;> simp [h]
  rw [flatData, sumCrimes, List.length_flatMap]
  refine congrArg List.sum (List.map_congr_left (fun report _ => ?_))
  rw [Function.comp_apply, List.length_flatMap]
  exact congrArg List.sum (List.map_congr_left (fun p _ => hinner p))

/-- Claim C8 amended: for every collection result containing at least one
incident record, format_data produces the incident table with row count
equal to the sum of the lengths of all fetch-outcome lists (empty outcomes
contributing zero rows and never injecting a row) and with exactly the four
columns lsoa, month, category, status; a collection result with no incident
records at all instead fails with a missing-column error (see the
counterexample). -/
theorem format_data_row_count_and_columns (data : List (List (String × List Crime)))
    (h : flatData data ≠ []) :
    format_data data = Except.ok (flatData data) ∧
    (flatData data).length = sumCrimes data ∧
    ∀ r ∈ flatData data, (rowCells r).map Prod.fst = ["lsoa", "month", "category", "status"] := by
  refine ⟨by rw [format_data, if_neg h], flatData_length data, fun r _ => rfl⟩

/-- Witness for the amended claim C8 at a concrete collection result with
one empty outcome and one two-incident outcome: three rows total. -/
theorem format_data_row_count_and_columns_witness :
    format_data [[("a", [])],
        [("b", [Crime.mk ("2022-01") ("theft") none,
          Crime.mk ("2022-01") ("burglary") (some (OutcomeStatus.mk none))])],
        [("c", [Crime.mk ("2022-02") ("theft") none])]] =
      Except.ok (flatData [[("a", [])],
        [("b", [Crime.mk ("2022-01") ("theft") none,
          Crime.mk ("2022-01") ("burglary") (some (OutcomeStatus.mk none))])],
        [("c", [Crime.mk ("2022-02") ("theft") none])]]) ∧
      sumCrimes [[("a", [])],
        [("b", [Crime.mk ("2022-01") ("theft") none,
          Crime.mk ("2022-01") ("burglary") (some (OutcomeStatus.mk none))])],
        [("c", [Crime.mk ("2022-02") ("theft") none])]] = 3 := by
  refine ⟨(format_data_row_count_and_columns _ (by decide)).1, by decide⟩

theorem round5_zero : round5 0 = 0 := by
  rw [round5, roundHalfEven]
  norm_num

theorem round5_one : round5 1 = 1 := by
  rw [round5, roundHalfEven]
  norm_num

theorem numStr_zero : numStr 0 = "0.0" := by
  rw [numStr]
  norm_num
  decide

theorem numStr_one : numStr 1 = "1.0" := by
  rw [numStr]
  norm_num
  decide

theorem aproxCoords_dup :
    aproxCoords [((0 : ℚ), (0 : ℚ)), (0, 0), (1, 0), (0, 1)] =
      [(0, 0), (0, 0), (0, 1), (1, 0)] := by
  simp [aproxCoords, round5_zero, round5_one]

/-- Claim C5 exposes a code bug, evaluated here: for a stored ring whose
first vertex is duplicated, the ring handed to simplification and encoding
(built by Polygon(aprox_coords), src/main.py line 89) still contains the
duplicated rounded vertex, while the deduplicated list the comment of
src/main.py lines 84-86 calls crucial for the polygon is computed but never
used for it. -/
theorem polygon_built_from_undeduped_ring :
    buildPolygon (aproxCoords [((0 : ℚ), (0 : ℚ)), (0, 0), (1, 0), (0, 1)]) =
      Except.ok [(0, 0), (0, 0), (0, 1), (1, 0), (0, 0)] ∧
    dedupedCoords [((0 : ℚ), (0 : ℚ)), (0, 0), (1, 0), (0, 1)] = [(0, 0), (0, 1), (1, 0)] := by
  constructor
  · rw [aproxCoords_dup, buildPolygon, if_neg (by decide), if_neg (by decide)]
    exact congrArg Except.ok (by decide)
  · rw [dedupedCoords, aproxCoords_dup, pyDedup]
    norm_num
    rw [pyDedup]
    norm_num
    rw [pyDedup]
    norm_num
    rw [pyDedup]

theorem simplifyLoop_fits (simplify : List (ℚ × ℚ) → ℚ → List (ℚ × ℚ)) (fuel : Nat)
    (p : List (ℚ × ℚ)) (tol : ℚ) (h : (format_coordinates p).length ≤ 300) :
    simplifyLoop simplify fuel p tol = some (format_coordinates p) := by
  cases fuel with
  | zero => rw [simplifyLoop, if_pos h]
  | succ n => rw [simplifyLoop, if_pos h]

theorem aproxCoords_two_distinct :
    aproxCoords [((0 : ℚ), (0 : ℚ)), (1, 0), (0, 0), (1, 0)] =
      [(0, 0), (0, 1), (0, 0), (0, 1)] := by
  simp [aproxCoords, round5_zero, round5_one]

/-- Counterexample to claim C7: a stored ring with only two distinct vertices
after rounding is not rejected — the code defines no GeometryError and
performs no distinct-vertex check — and get_coords returns a degenerate
coordinate string as a successful outcome. -/
theorem degenerate_ring_encoded_without_error :
    get_coords (fun p _ => p) 0 [((0 : ℚ), (0 : ℚ)), (1, 0), (0, 0), (1, 0)] =
      Except.ok (some ("0.0,0.0:0.0,1.0:0.0,0.0:0.0,1.0:0.0,0.0")) ∧
    (dedupedCoords [((0 : ℚ), (0 : ℚ)), (1, 0), (0, 0), (1, 0)]).length = 2 := by
  have hring : closeRing [((0 : ℚ), (0 : ℚ)), (0, 1), (0, 0), (0, 1)] =
      [(0, 0), (0, 1), (0, 0), (0, 1), (0, 0)] := by decide
  have hbp : buildPolygon (aproxCoords [((0 : ℚ), (0 : ℚ)), (1, 0), (0, 0), (1, 0)]) =
      Except.ok [(0, 0), (0, 1), (0, 0), (0, 1), (0, 0)] := by
    rw [aproxCoords_two_distinct, buildPolygon, if_neg (by decide), hring, if_neg (by decide)]
  have hfmt : format_coordinates [((0 : ℚ), (0 : ℚ)), (0, 1), (0, 0), (0, 1), (0, 0)] =
      "0.0,0.0:0.0,1.0:0.0,0.0:0.0,1.0:0.0,0.0" := by
    rw [format_coordinates]
    simp only [List.map_cons, List.map_nil, numStr_zero, numStr_one]
    decide
  constructor
  · rw [get_coords, hbp]
    show Except.ok (simplifyLoop _ 0 _ _) = _
    rw [simplifyLoop_fits _ _ _ _ (by rw [hfmt]; decide), hfmt]
  · rw [dedupedCoords, aproxCoords_two_distinct, pyDedup]
    norm_num
    rw [pyDedup]
    norm_num
    rw [pyDedup]
    rfl

/-- Claim C7 amended: the code never raises a GeometryError and performs no
distinct-vertex check; the only degeneracy rejection is inherited from the
shapely polygon constructor, which fails with a ValueError exactly when the
rounded ring is nonempty but closes to fewer than four coordinates — and
that failure is not fatal only for that area: the location_coords dict
comprehension of construct_url has no exception handling, so the error
propagates and aborts the whole run, including every other area. A ring
with fewer than three distinct vertices but at least four closed
coordinates is instead encoded into a degenerate coordinate string without
any error (see the counterexample). -/
theorem small_ring_rejected_and_aborts_run
    (coords : List (ℚ × ℚ)) (simplify : List (ℚ × ℚ) → ℚ → List (ℚ × ℚ)) (fuel : Nat)
    (hne : aproxCoords coords ≠ [])
    (hsmall : (closeRing (aproxCoords coords)).length < 4) :
    get_coords simplify fuel coords =
      Except.error ("ValueError: a linearring requires at least 4 coordinates") ∧
    ∀ (name : String) (rest : List (String × List (ℚ × ℚ))),
      location_coords simplify fuel ((name, coords) :: rest) =
        Except.error ("ValueError: a linearring requires at least 4 coordinates") := by
  have herr : get_coords simplify fuel coords =
      Except.error ("ValueError: a linearring requires at least 4 coordinates") := by
    rw [get_coords, buildPolygon, if_neg hne, if_pos hsmall]
    rfl
  refine ⟨herr, fun name rest => ?_⟩
  rw [location_coords, List.mapM_cons]
  show (Except.map (fun s => (name, s)) (get_coords simplify fuel coords)).bind _ =
    Except.error ("ValueError: a linearring requires at least 4 coordinates")
  rw [herr]
  rfl

/-- Witness for the amended claim C7: a stored ring of two vertices closes
to three coordinates; get_coords is rejected by the polygon constructor and
the whole location_coords comprehension aborts with the same error even
though a second, valid area follows. -/
theorem small_ring_aborts_witness :
    get_coords (fun p _ => p) 0 [((0 : ℚ), (0 : ℚ)), (1, 0)] =
      Except.error ("ValueError: a linearring requires at least 4 coordinates") ∧
    location_coords (fun p _ => p) 0
        [(("bad"), [((0 : ℚ), (0 : ℚ)), (1, 0)]),
          (("other"), [((0 : ℚ), (0 : ℚ)), (1, 0), (1, 1), (0, 1), (0, 0)])] =
      Except.error ("ValueError: a linearring requires at least 4 coordinates") := by
  have ha : aproxCoords [((0 : ℚ), (0 : ℚ)), (1, 0)] = [(0, 0), (0, 1)] := by
    simp [aproxCoords, round5_zero, round5_one]
  have h := small_ring_rejected_and_aborts_run [((0 : ℚ), (0 : ℚ)), (1, 0)] (fun p _ => p) 0
    (by rw [ha]; decide) (by rw [ha]; decide)
  exact ⟨h.1, h.2 ("bad")
    [(("other"), [((0 : ℚ), (0 : ℚ)), (1, 0), (1, 1), (0, 1), (0, 0)])]⟩

/-- Claim C4: for every stored vertex list whose rounded ring is already
closed and large enough for the polygon constructor, and whose encoding
already fits the 300-character ceiling, the string emitted by get_coords is
exactly the stored (lon, lat) pairs rendered latitude-first — each pair
swapped exactly once from the longitude-first storage convention to the
latitude-first convention of the API, as "lat,lon" values joined by ":"
(the data-model section of the spec describes the same string as "lon,lat"
pairs, but the code and the API convention are latitude-first). -/
theorem get_coords_swaps_axes_once
    (coords : List (ℚ × ℚ)) (simplify : List (ℚ × ℚ) → ℚ → List (ℚ × ℚ)) (fuel : Nat)
    (hne : coords ≠ [])
    (hclosed : (aproxCoords coords).head? = (aproxCoords coords).getLast?)
    (hlen : 4 ≤ (aproxCoords coords).length)
    (hfits : (format_coordinates (aproxCoords coords)).length ≤ 300) :
    get_coords simplify fuel coords =
      Except.ok (some (String.intercalate (":")
        (coords.map (fun p => numStr (round5 p.2) ++ "," ++ numStr (round5 p.1))))) := by
  have hane : aproxCoords coords ≠ [] := by
    intro hcontra
    exact hne (by simpa [aproxCoords] using hcontra)
  have hclose : closeRing (aproxCoords coords) = aproxCoords coords := by
    rw [closeRing, if_pos hclosed]
  have hbp : buildPolygon (aproxCoords coords) = Except.ok (aproxCoords coords) := by
    rw [buildPolygon, if_neg hane, hclose, if_neg (by omega)]
  rw [get_coords, hbp]
  show Except.ok (simplifyLoop simplify fuel (aproxCoords coords) (1/1000000)) = _
  rw [simplifyLoop_fits _ _ _ _ hfits, format_coordinates, aproxCoords, List.map_map]
  rfl

/-- Witness for claim C4 at a concrete closed square: the stored pair
(1, 0) — longitude 1, latitude 0 — is emitted as "0.0,1.0", latitude
first. -/
theorem get_coords_swaps_axes_once_witness :
    get_coords (fun p _ => p) 3 [((0 : ℚ), (0 : ℚ)), (1, 0), (1, 1), (0, 1), (0, 0)] =
      Except.ok (some ("0.0,0.0:0.0,1.0:1.0,1.0:1.0,0.0:0.0,0.0")) := by
  have ha : aproxCoords [((0 : ℚ), (0 : ℚ)), (1, 0), (1, 1), (0, 1), (0, 0)] =
      [(0, 0), (0, 1), (1, 1), (1, 0), (0, 0)] := by
    simp [aproxCoords, round5_zero, round5_one]
  have hfmt : format_coordinates [((0 : ℚ), (0 : ℚ)), (0, 1), (1, 1), (1, 0), (0, 0)] =
      "0.0,0.0:0.0,1.0:1.0,1.0:1.0,0.0:0.0,0.0" := by
    rw [format_coordinates]
    simp only [List.map_cons, List.map_nil, numStr_zero, numStr_one]
    decide
  have h := get_coords_swaps_axes_once
    [((0 : ℚ), (0 : ℚ)), (1, 0), (1, 1), (0, 1), (0, 0)] (fun p _ => p) 3
    (by decide) (by rw [ha]; decide) (by rw [ha]; decide) (by rw [ha, hfmt]; decide)
  rw [h]
  simp only [List.map_cons, List.map_nil, round5_zero, round5_one, numStr_zero, numStr_one]
  rfl

theorem simplifyLoop_result_le300 (simplify : List (ℚ × ℚ) → ℚ → List (ℚ × ℚ)) :
    ∀ (fuel : Nat) (p : List (ℚ × ℚ)) (tol : ℚ) (s : String),
      simplifyLoop simplify fuel p tol = some s → s.length ≤ 300 := by
  intro fuel
  induction fuel with
  | zero =>
    intro p tol s h
    rw [simplifyLoop] at h
    by_cases hf : (format_coordinates p).length ≤ 300
    · rw [if_pos hf] at h
      cases h
      exact hf
    · rw [if_neg hf] at h
      cases h
  | succ n ih =>
    intro p tol s h
    rw [simplifyLoop] at h
    by_cases hf : (format_coordinates p).length ≤ 300
    · rw [if_pos hf] at h
      cases h
      exact hf
    · rw [if_neg hf] at h
      exact ih _ _ _ h

theorem simplifyLoop_term_aux (simplify : List (ℚ × ℚ) → ℚ → List (ℚ × ℚ)) (T : ℚ)
    (hs : ∀ (p : List (ℚ × ℚ)) (tol : ℚ), T ≤ tol →
      (format_coordinates (simplify p tol)).length ≤ 300) :
    ∀ (k : Nat) (p : List (ℚ × ℚ)) (tol : ℚ), T ≤ tol * (5/4) ^ k →
      ∃ s, simplifyLoop simplify (k + 1) p tol = some s := by
  intro k
  induction k with
  | zero =>
    intro p tol hT
    have hT' : T ≤ tol := by simpa using hT
    by_cases hf : (format_coordinates p).length ≤ 300
    · exact ⟨format_coordinates p, by rw [simplifyLoop, if_pos hf]⟩
    · refine ⟨format_coordinates (simplify p tol), ?_⟩
      rw [simplifyLoop, if_neg hf, simplifyLoop, if_pos (hs p tol hT')]
  | succ k ih =>
    intro p tol hT
    by_cases hf : (format_coordinates p).length ≤ 300
    · exact ⟨format_coordinates p, by rw [simplifyLoop, if_pos hf]⟩
    · have hT2 : T ≤ tol * (5/4) * (5/4) ^ k := by
        calc T ≤ tol * (5/4) ^ (k + 1) := hT
          _ = tol * (5/4) * (5/4) ^ k := by ring
      obtain ⟨s, hsk⟩ := ih (simplify p tol) (tol * (5/4)) hT2
      exact ⟨s, by rw [simplifyLoop, if_neg hf]; exact hsk⟩

/-- Claim C2: under the modelled guarantee of the GEOS simplifier — above
some tolerance threshold T the simplified encoding always fits the
300-character ceiling, which is how the spec describes convergence to a
minimal polygon — the tolerance-growing loop of get_coords, started at the
hard-coded tolerance 1/1000000, terminates within a bounded number of
iterations on every input ring; and unconditionally, any string the loop
returns has length at most 300, because the loop only exits on that
condition. -/
theorem simplification_loop_terminates_within_ceiling
    (simplify : List (ℚ × ℚ) → ℚ → List (ℚ × ℚ)) (T : ℚ)
    (hs : ∀ (p : List (ℚ × ℚ)) (tol : ℚ), T ≤ tol →
      (format_coordinates (simplify p tol)).length ≤ 300)
    (ring : List (ℚ × ℚ)) :
    (∃ (n : Nat) (s : String),
      simplifyLoop simplify n ring (1/1000000) = some s ∧ s.length ≤ 300) ∧
    (∀ (n : Nat) (s : String),
      simplifyLoop simplify n ring (1/1000000) = some s → s.length ≤ 300) := by
  constructor
  · obtain ⟨k, hk⟩ := exists_nat_ge (1000000 * 4 * T)
    have hpow : (1 : ℚ) + k * (1/4) ≤ (5/4) ^ k := by
      have h := one_add_mul_le_pow (by norm_num : (-2 : ℚ) ≤ 1/4) k
      have h2 : ((1 : ℚ) + 1/4) ^ k = (5/4) ^ k := by norm_num
      rw [h2] at h
      exact h
    have hT' : T ≤ (1/1000000) * (5/4) ^ k := by
      have hk' : (1000000 : ℚ) * 4 * T ≤ k := hk
      linarith [hpow, hk']
    obtain ⟨s, hsome⟩ := simplifyLoop_term_aux simplify T hs k ring (1/1000000) hT'
    exact ⟨k + 1, s, hsome, simplifyLoop_result_le300 simplify _ _ _ _ hsome⟩
  · intro n s h
    exact simplifyLoop_result_le300 simplify _ _ _ _ h

/-- Witness for claim C2 with a concrete simplifier model that always
returns the empty ring (whose encoding is the empty string): the loop
terminates within the bound and returns a string within the ceiling. -/
theorem simplification_loop_terminates_witness :
    ∃ (n : Nat) (s : String),
      simplifyLoop (fun _ _ => ([] : List (ℚ × ℚ))) n [((0 : ℚ), (0 : ℚ))] (1/1000000) =
        some s ∧ s.length ≤ 300 :=
  (simplification_loop_terminates_within_ceiling (fun _ _ => ([] : List (ℚ × ℚ))) 1
    (fun p tol _ =>
      show (format_coordinates ([] : List (ℚ × ℚ))).length ≤ 300 by decide)
    [((0 : ℚ), (0 : ℚ))]).1

/-- Witness for claim C3 at the empty body. -/
theorem make_request_404_empty_witness :
    make_request (HttpResponse.mk 404 []) = Except.ok [] :=
  make_request_404_empty []

/-- Witness for claim C9 at a concrete three-row incident table with one
duplicated key: counts sum to three and keys are distinct. -/
theorem aggregate_stats_invariants_witness :
    ((aggregate_stats [IncidentRow.mk ("a") ("m") ("c") none,
        IncidentRow.mk ("a") ("m") ("c") (some ("s")),
        IncidentRow.mk ("b") ("m") ("c") none]).map (fun g => g.2)).sum = 3 ∧
    ((aggregate_stats [IncidentRow.mk ("a") ("m") ("c") none,
        IncidentRow.mk ("a") ("m") ("c") (some ("s")),
        IncidentRow.mk ("b") ("m") ("c") none]).map (fun g => g.1)).Nodup := by
  have h := aggregate_stats_invariants [IncidentRow.mk ("a") ("m") ("c") none,
    IncidentRow.mk ("a") ("m") ("c") (some ("s")),
    IncidentRow.mk ("b") ("m") ("c") none]
  simpa using h

/-- Witness for claim C10 at the year range the program uses. -/
theorem generate_months_correct_witness :
    generate_months 2022 2025 = monthsByYearSpec 2022 2025 ∧
    (generate_months 2022 2025).length = 12 * ((2025 : Int) - 2022).toNat :=
  generate_months_correct 2022 2025
